import Mathlib

/-!
Verification of the Sports_android exercise-classification core.

The Python sources under `server/src` are shallowly embedded here:

* `SquatAnalyzerMobile` (`analyzers/squat_analyzer.py`) as `processFrame` over
  `SquatState`;
* `JumpAnalyzer` (`analyzers/jump_analyzer.py`) as `readFrameJump` over
  `JumpState`, with `detectSquatCheat` and `finalizeJump`;
* `JumpAnalyzerMobile` as `mobileJumpProcess` over `MJState`;
* `SquatAnalyzer._speak` (the feedback dispatcher's enqueue discipline) as
  `speakFeedback` over `SpeechState`;
* `CameraManager` (`utils/camera_manager.py`) as `startCM` over `CMState`.

Numbers are embedded as exact rationals.  The two transcendental three-point
angle primitives of the source (`_calculate_angle`, the `atan2`-based formula
with range `[0, 180]`, and the `acos`-based `angle` helper inside
`detect_squat_cheat`) are kept abstract: every definition that needs one takes
it as an explicit function parameter (`calcAngle` / `angJ`), and every theorem
quantifies over it.  Euclidean-distance comparisons `hypot(p - q) < t` (with
`t = 60 ≥ 0`) are embedded by the equivalent squared comparison
`(px - qx)^2 + (py - qy)^2 < t^2` to stay inside exact arithmetic.
-/

/-- A pose landmark as produced by the pose estimator: normalized coordinates
plus a visibility confidence. -/
structure Landmark where
  x : ℚ
  y : ℚ
  visibility : ℚ
  deriving DecidableEq, Repr

/-- The four landmarks `SquatAnalyzerMobile.process_frame` extracts
(LEFT_SHOULDER, LEFT_HIP, LEFT_KNEE, LEFT_ANKLE). -/
structure SquatLms where
  shoulder : Landmark
  hip : Landmark
  knee : Landmark
  ankle : Landmark
  deriving DecidableEq, Repr

/-- Squat stages: standing (S1), partial (S2), deep (S3). -/
inductive Stage where
  | S1
  | S2
  | S3
  deriving DecidableEq, Repr

/-- Mutable state of `SquatAnalyzerMobile` (fields set in `__init__`). -/
structure SquatState where
  correct_counter : ℕ
  incorrect_counter : ℕ
  stage : Option Stage
  sequence : List Stage
  feedback : Option String
  knee_history : List ℚ
  back_history : List ℚ
  depth_hold : ℕ
  min_knee_angle : ℚ
  deriving DecidableEq, Repr

/-- Initial state built by `SquatAnalyzerMobile.__init__`. -/
def squatInit : SquatState :=
  { correct_counter := 0
    incorrect_counter := 0
    stage := none
    sequence := []
    feedback := none
    knee_history := []
    back_history := []
    depth_hold := 0
    min_knee_angle := 180 }

/-- `SquatAnalyzerMobile.reset`. -/
def squatReset (s : SquatState) : SquatState :=
  { s with
    correct_counter := 0
    incorrect_counter := 0
    sequence := []
    stage := none
    depth_hold := 0
    min_knee_angle := 180
    feedback := none
    knee_history := []
    back_history := [] }

/-- `collections.deque(maxlen=5).append`: append, evicting from the front once
the capacity of 5 is exceeded. -/
def pushWindow (w : List ℚ) (v : ℚ) : List ℚ :=
  let w' := w ++ [v]
  if w'.length > 5 then w'.drop (w'.length - 5) else w'

/-- `sum(history) / len(history)`: the running mean of a sliding window. -/
def winMean (w : List ℚ) : ℚ :=
  w.sum / (w.length : ℚ)

/-- Python's `l[-n:]`: the last `n` elements (the whole list if shorter). -/
def lastN {α : Type} (n : ℕ) (l : List α) : List α :=
  l.drop (l.length - n)

/-- Stage classification from the smoothed knee angle
(`knee_angle > 160 → S1`, `160 ≥ knee_angle > 95 → S2`, `≤ 95 → S3`). -/
def classifyStage (knee_angle : ℚ) (prev : Option Stage) : Option Stage :=
  if knee_angle > 160 then some Stage.S1
  else if 160 ≥ knee_angle ∧ knee_angle > 95 then some Stage.S2
  else if knee_angle ≤ 95 then some Stage.S3
  else prev

/-- Output of the rep-resolution block of `process_frame`. -/
structure RepOut where
  correct : ℕ
  incorrect : ℕ
  seq : List Stage
  dh : ℕ
  minK : ℚ
  fb : Option String
  deriving DecidableEq, Repr

/-- The rep-resolution `if`/`elif` chain of `SquatAnalyzerMobile.process_frame`
(lines 459-483 of `squat_analyzer.py`). -/
def repResolve (seq : List Stage) (dh : ℕ) (knee_angle : ℚ) (cc ic : ℕ)
    (minK : ℚ) : RepOut :=
  if seq.length ≥ 3 ∧ lastN 3 seq = [Stage.S1, Stage.S2, Stage.S3] ∧ dh ≥ 3 then
    if knee_angle > 100 then
      ⟨cc + 1, ic, [], 0, 180, some "Correct Squat"⟩
    else
      ⟨cc, ic, seq, dh, minK, none⟩
  else if seq.length ≥ 3 ∧ lastN 3 seq = [Stage.S2, Stage.S3, Stage.S2] ∧ dh ≥ 3 then
    ⟨cc + 1, ic, [], 0, 180, some "Correct Squat"⟩
  else if seq.length ≥ 3 ∧ seq.getLast? = some Stage.S1 then
    if seq ≠ [Stage.S1] ∧ Stage.S3 ∉ seq then
      ⟨cc, ic + 1, [], 0, minK, some "Incomplete Squat - Go deeper"⟩
    else if seq ≠ [Stage.S1] ∧ dh < 3 then
      ⟨cc, ic + 1, [], 0, minK, some "Hold at bottom longer"⟩
    else
      ⟨cc, ic, [], 0, minK, none⟩
  else
    ⟨cc, ic, seq, dh, minK, none⟩

/-- The form-feedback override chain of `process_frame` (lines 485-496),
last-write-wins with the knees-over-toes check applied after the chain. -/
def formFeedback (back_angle knee_angle : ℚ) (stage : Option Stage)
    (minK : ℚ) (fb0 : Option String) (lms : SquatLms) : Option String :=
  let fb1 :=
    if back_angle < 25 then some "Bend forward"
    else if back_angle > 50 then some "Bend backwards"
    else if stage = some Stage.S2 ∧ knee_angle > 80 then some "Lower your hips"
    else if stage = some Stage.S3 ∧ knee_angle < 50 then some "Squat too deep"
    else if stage = some Stage.S3 ∧ minK > 60 then some "Raise deeper"
    else fb0
  if lms.ankle.x > lms.knee.x then some "Knees over toes" else fb1

/-- The feedback emitted when the pose or a required landmark is missing. -/
def visMsg : String := "Please make your full body visible"

/-- The visibility gate: all four landmarks strictly above 0.8. -/
def visOK (lms : SquatLms) : Prop :=
  lms.shoulder.visibility > 0.8 ∧ lms.hip.visibility > 0.8 ∧
  lms.knee.visibility > 0.8 ∧ lms.ankle.visibility > 0.8

instance (lms : SquatLms) : Decidable (visOK lms) := by
  unfold visOK
  infer_instance

/-- `SquatAnalyzerMobile.process_frame`, state part.  `input` is the pose
estimator's outcome for the frame (`none` when no person was detected);
`calcAngle` abstracts `_calculate_angle`. -/
def processFrame (calcAngle : Landmark → Landmark → Landmark → ℚ)
    (input : Option SquatLms) (s : SquatState) : SquatState :=
  match input with
  | none => { s with feedback := some visMsg }
  | some lms =>
    if visOK lms then
      let knee_raw := calcAngle lms.hip lms.knee lms.ankle
      let back_raw := calcAngle lms.shoulder lms.hip lms.knee
      let kh := pushWindow s.knee_history knee_raw
      let bh := pushWindow s.back_history back_raw
      let knee_angle := winMean kh
      let back_angle := winMean bh
      let minK := min s.min_knee_angle knee_angle
      let prev_stage := s.stage
      let stage := classifyStage knee_angle prev_stage
      let seq :=
        match stage with
        | some st => if prev_stage ≠ some st then s.sequence ++ [st] else s.sequence
        | none => s.sequence
      let dh := if stage = some Stage.S3 then s.depth_hold + 1 else s.depth_hold
      let r := repResolve seq dh knee_angle s.correct_counter s.incorrect_counter minK
      let fb := formFeedback back_angle knee_angle stage r.minK r.fb lms
      { correct_counter := r.correct
        incorrect_counter := r.incorrect
        stage := stage
        sequence := r.seq
        feedback := fb
        knee_history := kh
        back_history := bh
        depth_hold := r.dh
        min_knee_angle := r.minK }
    else
      { s with feedback := some visMsg }

/-- Angle oracle used for concrete replays: reads the first argument's `x`
coordinate, so a frame's knee angle is `hip.x` and its back angle is
`shoulder.x` (the real `atan2` formula is abstracted; its range is
`[0, 180]`, which the replays below respect). -/
def angOracle : Landmark → Landmark → Landmark → ℚ :=
  fun a _ _ => a.x

/-- A fully visible frame whose oracle knee angle is `kneeRaw` and back angle
is `backRaw`; ankle is not in front of the knee (`ankle.x = knee.x`). -/
def mkLms (kneeRaw backRaw : ℚ) : SquatLms :=
  { shoulder := ⟨backRaw, 0, 1⟩
    hip := ⟨kneeRaw, 0, 1⟩
    knee := ⟨0, 0, 1⟩
    ankle := ⟨0, 1, 1⟩ }

/-- Replay a list of frames through `processFrame` from the initial state. -/
def replaySquat (frames : List SquatLms) : SquatState :=
  frames.foldl (fun s f => processFrame angOracle (some f) s) squatInit

/-! Concrete replays used by counterexamples and witnesses. -/

/-- Seven fully visible frames with raw knee angles
`170, 95, 60, 60, 60, 100, 120` (back angle 30 throughout): they drive the
classifier through stages `S1, S2, S2, S2, S3, S3, S3`, leaving
`sequence = [S1, S2, S3]` and `depth_hold = 3`. -/
def c1frames : List SquatLms :=
  [mkLms 170 30, mkLms 95 30, mkLms 60 30, mkLms 60 30, mkLms 60 30,
   mkLms 100 30, mkLms 120 30]

/-- The state after replaying `c1frames`. -/
def sBottom : SquatState := replaySquat c1frames

/-- The rising frame: raw knee angle 165, smoothed knee angle 101. -/
def fRise : SquatLms := mkLms 165 30

/-- Four fully visible frames with raw knee angles `170, 110, 180, 180`:
stages `S1, S2, S2, S2`, `sequence = [S1, S2]`, `min_knee_angle = 140`. -/
def c3frames : List SquatLms :=
  [mkLms 170 30, mkLms 110 30, mkLms 180 30, mkLms 180 30]

/-- The state after replaying `c3frames`. -/
def tShallow : SquatState := replaySquat c3frames

/-- A fifth frame with raw knee angle 180: the smoothed angle rises to 164,
the stage returns to `S1` and an incomplete rep is resolved. -/
def fTop : SquatLms := mkLms 180 30

/-! Helper lemmas about `lastN` and the rep-resolution block. -/

theorem lastN_length_le (n : ℕ) (l : List Stage) (h : lastN n l = [Stage.S1, Stage.S2, Stage.S3]) :
    3 ≤ l.length := by
  have hc := congrArg List.length h
  simp [lastN] at hc
  omega

theorem lastN_append_of_le {α : Type} (n : ℕ) (l₁ l₂ : List α) (h : n ≤ l₂.length) :
    lastN n (l₁ ++ l₂) = lastN n l₂ := by
  simp only [lastN, List.length_append]
  have h2 : l₁.length + l₂.length - n = l₁.length + (l₂.length - n) := by omega
  rw [h2, List.drop_append]

theorem lastN_snoc (l : List Stage) (a b c v : Stage)
    (h : lastN 3 l = [a, b, c]) : lastN 3 (l ++ [v]) = [b, c, v] := by
  have hsplit : l.take (l.length - 3) ++ lastN 3 l = l := List.take_append_drop _ _
  rw [← hsplit, h, List.append_assoc]
  rw [lastN_append_of_le 3 _ ([a, b, c] ++ [v]) (by simp)]
  simp [lastN]

theorem repResolve_counters (seq : List Stage) (dh : ℕ) (ka : ℚ) (cc ic : ℕ) (mk : ℚ) :
    cc ≤ (repResolve seq dh ka cc ic mk).correct ∧
    ic ≤ (repResolve seq dh ka cc ic mk).incorrect ∧
    (repResolve seq dh ka cc ic mk).correct + (repResolve seq dh ka cc ic mk).incorrect
      ≤ cc + ic + 1 := by
  unfold repResolve
  split_ifs <;> simp <;> omega

theorem repResolve_min_of_correct (seq : List Stage) (dh : ℕ) (ka : ℚ) (cc ic : ℕ) (mk : ℚ)
    (h : (repResolve seq dh ka cc ic mk).correct = cc + 1) :
    (repResolve seq dh ka cc ic mk).minK = 180 := by
  unfold repResolve at h ⊢
  split_ifs at h ⊢ <;> simp_all <;> omega

/-- Claim C5: whenever any of the four required squat landmarks has visibility
not above 0.8, `process_frame` sets the feedback to the full-body-visibility
message ("Please make your full body visible") and leaves every other state
component — counters, stage, sequence, depth_hold, min_knee_angle and both
angle sliding windows — unchanged. -/
theorem squat_visibility_gate (calcAngle : Landmark → Landmark → Landmark → ℚ)
    (lms : SquatLms) (s : SquatState) (h : ¬ visOK lms) :
    processFrame calcAngle (some lms) s = { s with feedback := some visMsg } := by
  simp [processFrame, h]

/-- Witness for C5: a frame whose knee landmark has visibility 0.5 mutates
nothing but the feedback. -/
theorem squat_visibility_gate_witness :
    ¬ visOK { shoulder := ⟨0, 0, 1⟩, hip := ⟨0, 0, 1⟩, knee := ⟨0, 0, 0.5⟩,
              ankle := ⟨0, 0, 1⟩ } ∧
    processFrame angOracle
      (some { shoulder := ⟨0, 0, 1⟩, hip := ⟨0, 0, 1⟩, knee := ⟨0, 0, 0.5⟩,
              ankle := ⟨0, 0, 1⟩ }) squatInit
      = { squatInit with feedback := some visMsg } :=
  ⟨by with_unfolding_all decide, squat_visibility_gate angOracle _ squatInit (by with_unfolding_all decide)⟩

/-- Claim C10: across every `process_frame` call, `correct_counter` and
`incorrect_counter` are non-decreasing and their sum grows by at most one (at
most one rep is resolved per frame). -/
theorem squat_counters_monotone (calcAngle : Landmark → Landmark → Landmark → ℚ)
    (input : Option SquatLms) (s : SquatState) :
    s.correct_counter ≤ (processFrame calcAngle input s).correct_counter ∧
    s.incorrect_counter ≤ (processFrame calcAngle input s).incorrect_counter ∧
    (processFrame calcAngle input s).correct_counter
      + (processFrame calcAngle input s).incorrect_counter
      ≤ s.correct_counter + s.incorrect_counter + 1 := by
  cases input with
  | none => simp [processFrame]
  | some lms =>
    by_cases h : visOK lms
    · simp only [processFrame, if_pos h]
      exact repResolve_counters _ _ _ _ _ _
    · simp [processFrame, h]

/-- Claim C3 (amended): a `process_frame` call that resolves a correct rep
(increments `correct_counter`) resets `min_knee_angle` to 180. -/
theorem correct_rep_resets_min (calcAngle : Landmark → Landmark → Landmark → ℚ)
    (input : Option SquatLms) (s : SquatState)
    (h : (processFrame calcAngle input s).correct_counter = s.correct_counter + 1) :
    (processFrame calcAngle input s).min_knee_angle = 180 := by
  cases input with
  | none => simp [processFrame] at h
  | some lms =>
    by_cases hv : visOK lms
    · simp only [processFrame, if_pos hv] at h ⊢
      exact repResolve_min_of_correct _ _ _ _ _ _ h
    · simp [processFrame, hv] at h

/-- Witness for C3 (amended): the rising frame `fRise` after the `c1frames`
replay resolves a correct rep, and `min_knee_angle` ends at 180. -/
theorem correct_rep_resets_min_witness :
    (processFrame angOracle (some fRise) sBottom).correct_counter
      = sBottom.correct_counter + 1 ∧
    (processFrame angOracle (some fRise) sBottom).min_knee_angle = 180 :=
  ⟨by with_unfolding_all decide, correct_rep_resets_min angOracle (some fRise) sBottom (by with_unfolding_all decide)⟩

/-- Counterexample to C3 as stated: the fifth frame of the
`c3frames ++ [fTop]` replay resolves a rep as incorrect
(`incorrect_counter` goes from 0 to 1), yet `min_knee_angle` is 140, not 180,
at the end of that call. -/
theorem incorrect_rep_keeps_min :
    tShallow.incorrect_counter = 0 ∧
    (processFrame angOracle (some fTop) tShallow).incorrect_counter = 1 ∧
    (processFrame angOracle (some fTop) tShallow).min_knee_angle = 140 ∧
    (140 : ℚ) ≠ 180 := by
  with_unfolding_all decide

/-- In the form-feedback chain, when the stage is `S2` and the smoothed knee
angle is above 80, every possible outcome ("Bend forward", "Bend backwards",
"Lower your hips", "Knees over toes") differs from "Correct Squat": the
override chain always rewrites the rep feedback on such a frame. -/
theorem formFeedback_S2_ne_correct (back m mk : ℚ) (fb0 : Option String)
    (lms : SquatLms) (h : 80 < m) :
    formFeedback back m (some Stage.S2) mk fb0 lms ≠ some "Correct Squat" := by
  unfold formFeedback
  split_ifs with h1 h2 h3 h4 <;> simp_all

/-- Claim C1 (amended): entering a frame whose last three recorded stages are
`[S1, S2, S3]` with `depth_hold ≥ 3`, when the new smoothed knee angle exceeds
100, the rep is counted — `correct_counter` rises by exactly one, `sequence`
is cleared, `min_knee_angle` returns to 180 and `depth_hold` to 0 — but it
fires through the `[S2, S3, S2]` branch (the stage moves to `S2` first), and
the final feedback of the call is never "Correct Squat": the form-feedback
pass overwrites it, since the stage is `S2` with knee angle above 80.  The
hypotheses `hstage`, `hlen`, `hmean`, `hnn`, `hr0`, `hr180` are invariants of
every real replay at such a frame: `sequence` ending in `S3` forces
`stage = S3` and a window mean at most 95, reaching `[S1, S2, S3]` with three
deep frames requires at least five pushes (a full window), and
`_calculate_angle` returns values in `[0, 180]`. -/
theorem rise_from_bottom_counts_rep
    (calcAngle : Landmark → Landmark → Landmark → ℚ) (lms : SquatLms) (s : SquatState)
    (hvis : visOK lms)
    (hseq : lastN 3 s.sequence = [Stage.S1, Stage.S2, Stage.S3])
    (hdh : 3 ≤ s.depth_hold)
    (hstage : s.stage = some Stage.S3)
    (hlen : s.knee_history.length = 5)
    (hmean : winMean s.knee_history ≤ 95)
    (hnn : ∀ v ∈ s.knee_history, 0 ≤ v)
    (hr0 : 0 ≤ calcAngle lms.hip lms.knee lms.ankle)
    (hr180 : calcAngle lms.hip lms.knee lms.ankle ≤ 180)
    (hknee : 100 < winMean (pushWindow s.knee_history (calcAngle lms.hip lms.knee lms.ankle))) :
    (processFrame calcAngle (some lms) s).correct_counter = s.correct_counter + 1 ∧
    (processFrame calcAngle (some lms) s).sequence = [] ∧
    (processFrame calcAngle (some lms) s).depth_hold = 0 ∧
    (processFrame calcAngle (some lms) s).min_knee_angle = 180 ∧
    (processFrame calcAngle (some lms) s).feedback ≠ some "Correct Squat" := by
  set raw := calcAngle lms.hip lms.knee lms.ankle with hraw
  obtain ⟨v0, rest, hkh⟩ : ∃ v0 rest, s.knee_history = v0 :: rest := by
    cases hh : s.knee_history with
    | nil => rw [hh] at hlen; simp at hlen
    | cons a l => exact ⟨a, l, rfl⟩
  have hrl : rest.length = 4 := by
    rw [hkh] at hlen
    simpa using hlen
  have hpw : pushWindow s.knee_history raw = rest ++ [raw] := by
    rw [hkh]
    simp [pushWindow, hrl]
  have hm : winMean (pushWindow s.knee_history raw) = (rest.sum + raw) / 5 := by
    rw [hpw]
    simp [winMean, hrl]
  have hv0 : 0 ≤ v0 := hnn v0 (by rw [hkh]; exact List.mem_cons_self _ _)
  have hsum : v0 + rest.sum ≤ 475 := by
    rw [hkh] at hmean
    simp [winMean, hrl] at hmean
    rw [div_le_iff₀ (by norm_num : (0:ℚ) < 5)] at hmean
    linarith
  have h100 : 100 < (rest.sum + raw) / 5 := by rw [← hm]; exact hknee
  have h160 : (rest.sum + raw) / 5 ≤ 160 := by
    rw [div_le_iff₀ (by norm_num : (0:ℚ) < 5)]
    linarith
  have hcs : classifyStage (winMean (pushWindow s.knee_history raw)) s.stage
      = some Stage.S2 := by
    rw [hm]
    unfold classifyStage
    rw [if_neg (by linarith), if_pos ⟨by linarith, by linarith⟩]
  have hseqlen : 3 ≤ s.sequence.length := lastN_length_le 3 s.sequence hseq
  have hsnoc : lastN 3 (s.sequence ++ [Stage.S2]) = [Stage.S2, Stage.S3, Stage.S2] :=
    lastN_snoc _ _ _ _ _ hseq
  have hrr : repResolve (s.sequence ++ [Stage.S2]) s.depth_hold
      (winMean (pushWindow s.knee_history raw)) s.correct_counter s.incorrect_counter
      (min s.min_knee_angle (winMean (pushWindow s.knee_history raw)))
      = ⟨s.correct_counter + 1, s.incorrect_counter, [], 0, 180, some "Correct Squat"⟩ := by
    unfold repResolve
    rw [if_neg, if_pos]
    · exact ⟨by simp; omega, hsnoc, hdh⟩
    · rintro ⟨-, hbad, -⟩
      rw [hsnoc] at hbad
      exact absurd hbad (by decide)
  have hm80 : 80 < winMean (pushWindow s.knee_history raw) := by rw [hm]; linarith
  rw [hstage] at hcs
  simp only [processFrame, if_pos hvis, ← hraw, hstage, hcs]
  simp only [ne_eq, Option.some.injEq, reduceCtorEq, not_false_eq_true, if_true,
    reduceIte]
  rw [hrr]
  exact ⟨rfl, rfl, rfl, rfl, formFeedback_S2_ne_correct _ _ _ _ lms hm80⟩

/-- Counterexample to C1 as stated: at the rising frame `fRise` after the
`c1frames` replay, the last three recorded stages are `[S1, S2, S3]`,
`depth_hold = 3`, and the smoothed knee angle is 101 (above 100); the rep IS
counted, but the call's final feedback is "Lower your hips", not
"Correct Squat" — the form-feedback pass overwrites the rep feedback. -/
theorem rise_frame_feedback_overwritten :
    lastN 3 sBottom.sequence = [Stage.S1, Stage.S2, Stage.S3] ∧
    3 ≤ sBottom.depth_hold ∧
    winMean (pushWindow sBottom.knee_history
      (angOracle fRise.hip fRise.knee fRise.ankle)) = 101 ∧
    (processFrame angOracle (some fRise) sBottom).correct_counter
      = sBottom.correct_counter + 1 ∧
    (processFrame angOracle (some fRise) sBottom).feedback = some "Lower your hips" ∧
    (processFrame angOracle (some fRise) sBottom).feedback ≠ some "Correct Squat" := by
  with_unfolding_all decide

/-- Witness for C1 (amended) at the concrete replay state `sBottom` and frame
`fRise`. -/
theorem rise_from_bottom_counts_rep_witness :
    visOK fRise ∧ 3 ≤ sBottom.depth_hold ∧
    ((processFrame angOracle (some fRise) sBottom).correct_counter
        = sBottom.correct_counter + 1 ∧
      (processFrame angOracle (some fRise) sBottom).sequence = [] ∧
      (processFrame angOracle (some fRise) sBottom).depth_hold = 0 ∧
      (processFrame angOracle (some fRise) sBottom).min_knee_angle = 180 ∧
      (processFrame angOracle (some fRise) sBottom).feedback ≠ some "Correct Squat") :=
  ⟨by with_unfolding_all decide, by with_unfolding_all decide,
    rise_from_bottom_counts_rep angOracle fRise sBottom
      (by with_unfolding_all decide) (by with_unfolding_all decide)
      (by with_unfolding_all decide) (by with_unfolding_all decide)
      (by with_unfolding_all decide) (by with_unfolding_all decide)
      (by with_unfolding_all decide) (by with_unfolding_all decide)
      (by with_unfolding_all decide) (by with_unfolding_all decide)⟩

/-- Pushing never grows the window beyond its capacity of 5. -/
theorem pushWindow_length_le (w : List ℚ) (v : ℚ) (hw : w.length ≤ 5) :
    (pushWindow w v).length ≤ 5 := by
  simp only [pushWindow]
  split_ifs with h <;> simp_all <;> omega

/-- Folding pushes over a window that respects its capacity keeps exactly the
last 5 of all values ever pushed. -/
theorem foldl_pushWindow (vs : List ℚ) (w : List ℚ) (hw : w.length ≤ 5) :
    vs.foldl pushWindow w = lastN 5 (w ++ vs) := by
  induction vs generalizing w with
  | nil => simp [lastN, Nat.sub_eq_zero_of_le hw]
  | cons v vs ih =>
    rw [List.foldl_cons, ih _ (pushWindow_length_le w v hw)]
    rcases Nat.lt_or_ge w.length 5 with hlt | hge
    · have hpw : pushWindow w v = w ++ [v] := by
        unfold pushWindow
        rw [if_neg (by simp; omega)]
      rw [hpw, List.append_assoc]
      simp
    · have h5 : w.length = 5 := le_antisymm hw hge
      obtain ⟨a, t, rfl⟩ : ∃ a t, w = a :: t := by
        cases w with
        | nil => simp at h5
        | cons a t => exact ⟨a, t, rfl⟩
      have ht : t.length = 4 := by simpa using h5
      have hpw : pushWindow (a :: t) v = t ++ [v] := by
        unfold pushWindow
        rw [if_pos (by simp [ht])]
        simp [ht]
      rw [hpw, List.append_assoc]
      have h1 : a :: t ++ v :: vs = [a] ++ (t ++ v :: vs) := by simp
      rw [h1, lastN_append_of_le 5 [a] (t ++ v :: vs) (by simp [ht]; omega)]
      simp

/-- Claim C7: for the capacity-5 sliding window, the mean after pushing a
single value `v` into a fresh window is `v`, and after pushing more than 5
values the mean is the arithmetic mean of exactly the 5 most recently pushed
values (older values evicted). -/
theorem sliding_window_mean :
    (∀ v : ℚ, winMean (pushWindow [] v) = v) ∧
    (∀ vs : List ℚ, 5 < vs.length →
      winMean (vs.foldl pushWindow []) = (lastN 5 vs).sum / 5) := by
  constructor
  · intro v
    simp [pushWindow, winMean]
  · intro vs h
    rw [foldl_pushWindow vs [] (by simp)]
    simp only [List.nil_append]
    have hl : (lastN 5 vs).length = 5 := by
      simp only [lastN, List.length_drop]
      omega
    unfold winMean
    rw [hl]
    norm_num

/-- Witness for C7 at the pushes `1, 2, 3, 4, 5, 6` (mean of the last five is
4) and the single push `7`. -/
theorem sliding_window_mean_witness :
    5 < [(1:ℚ), 2, 3, 4, 5, 6].length ∧
    winMean ([(1:ℚ), 2, 3, 4, 5, 6].foldl pushWindow [])
      = (lastN 5 [(1:ℚ), 2, 3, 4, 5, 6]).sum / 5 ∧
    winMean ([(1:ℚ), 2, 3, 4, 5, 6].foldl pushWindow []) = 4 ∧
    winMean (pushWindow [] (7:ℚ)) = 7 :=
  ⟨by decide, (sliding_window_mean).2 [(1:ℚ), 2, 3, 4, 5, 6] (by decide),
    by with_unfolding_all decide, (sliding_window_mean).1 7⟩

/-- State of the speech path of `SquatAnalyzer`: the last accepted text and
the queue contents (`_speak` plus `speech_queue`). -/
structure SpeechState where
  last_feedback : Option String
  speech_queue : List String
  deriving DecidableEq, Repr

/-- `SquatAnalyzer._speak`: enqueue `text` unless it is falsy (absent or
empty) or equal to the previously accepted text. -/
def speakFeedback (text : Option String) (s : SpeechState) : SpeechState :=
  match text with
  | none => s
  | some t =>
    if t ≠ "" ∧ some t ≠ s.last_feedback then
      { last_feedback := some t, speech_queue := s.speech_queue ++ [t] }
    else s

/-- Claim C8: a `say`/`_speak` call enqueues its text if and only if the text
is non-empty and differs from the immediately preceding accepted text
(consecutive-duplicate suppression only); a rejected call leaves the state
untouched. -/
theorem speak_enqueues_iff (s : SpeechState) (t : String) :
    ((speakFeedback (some t) s).speech_queue = s.speech_queue ++ [t] ↔
      (t ≠ "" ∧ some t ≠ s.last_feedback)) ∧
    (¬(t ≠ "" ∧ some t ≠ s.last_feedback) → speakFeedback (some t) s = s) := by
  by_cases hc : t ≠ "" ∧ some t ≠ s.last_feedback
  · refine ⟨?_, fun h => absurd hc h⟩
    simp [speakFeedback, hc]
  · have hq : speakFeedback (some t) s = s := by simp [speakFeedback, hc]
    refine ⟨?_, fun _ => hq⟩
    rw [hq]
    constructor
    · intro habs
      have := congrArg List.length habs
      simp at this
    · intro h
      exact absurd h hc

/-- Witness for C8: a repeated "X" is suppressed; "X", "Y", "X" enqueues all
three items. -/
theorem speak_enqueues_iff_witness :
    speakFeedback (some "X") ⟨some "X", ["X"]⟩ = ⟨some "X", ["X"]⟩ ∧
    ((speakFeedback (some "Y") ⟨some "X", ["X"]⟩).speech_queue = ["X"] ++ ["Y"] ↔
      ("Y" ≠ "" ∧ some "Y" ≠ some "X")) ∧
    (speakFeedback (some "X") (speakFeedback (some "Y")
      (speakFeedback (some "X") ⟨none, []⟩))).speech_queue = ["X", "Y", "X"] :=
  ⟨(speak_enqueues_iff ⟨some "X", ["X"]⟩ "X").2 (by decide),
    (speak_enqueues_iff ⟨some "X", ["X"]⟩ "Y").1,
    by decide⟩

/-- Result of a jump measurement (`JumpResult` dataclass). -/
structure JumpResultR where
  inches : ℚ
  valid : Bool
  reason : String
  deriving DecidableEq, Repr

/-- Environment configuration of `jump_analyzer.py` (defaults from
`os.getenv`). -/
structure JumpConfig where
  calibration_inches : ℚ
  calibration_pixels : ℚ
  min_jump_inches : ℚ
  smoothing_window : ℕ
  min_airborne_frames : ℕ
  vel_up_pct : ℚ
  vel_down_pct : ℚ
  deriving DecidableEq, Repr

/-- The default environment configuration
(`12, 100, 2.0, 5, 6, 0.25, 0.25`). -/
def defaultJumpConfig : JumpConfig :=
  { calibration_inches := 12
    calibration_pixels := 100
    min_jump_inches := 2
    smoothing_window := 5
    min_airborne_frames := 6
    vel_up_pct := 0.25
    vel_down_pct := 0.25 }

/-- `inches_per_pixel`. -/
def inchesPerPixel (cfg : JumpConfig) : ℚ :=
  if cfg.calibration_pixels > 0 then cfg.calibration_inches / cfg.calibration_pixels
  else 0.12

/-- `landmark_xy`: pixel coordinates, or `none` when visibility is below
0.4. -/
def landmarkXY (lm : Landmark) (w h : ℚ) : Option (ℚ × ℚ) :=
  if lm.visibility < 0.4 then none else some (lm.x * w, lm.y * h)

/-- `distance(p, q) < t` for `t ≥ 0`, written as the equivalent squared
comparison (the source computes `math.hypot`). -/
def distLt (p q : ℚ × ℚ) (t : ℚ) : Prop :=
  (p.1 - q.1) ^ 2 + (p.2 - q.2) ^ 2 < t ^ 2

instance (p q : ℚ × ℚ) (t : ℚ) : Decidable (distLt p q t) := by
  unfold distLt
  infer_instance

/-- `is_hand_to_nose` with its default 60-pixel threshold. -/
def isHandToNose (hand nose : Landmark) (w h : ℚ) : Bool :=
  match landmarkXY hand w h, landmarkXY nose w h with
  | some ph, some pn => decide (distLt ph pn 60)
  | _, _ => false

/-- The landmarks `JumpAnalyzer.read_frame` and `detect_squat_cheat` use. -/
structure JumpLms where
  nose : Landmark
  rightIndex : Landmark
  leftIndex : Landmark
  leftHip : Landmark
  rightHip : Landmark
  leftKnee : Landmark
  rightKnee : Landmark
  leftAnkle : Landmark
  rightAnkle : Landmark
  deriving DecidableEq, Repr

/-- `detect_squat_cheat`: `false` when any of the six hip/knee/ankle
landmarks is below the 0.4 visibility threshold; otherwise flag a squat when
the average knee-bend angle is under 150 degrees and either the hip midpoint
is not meaningfully above the knee midpoint or the ankle midline is within 60
pixels of the hip midline.  `angJ` abstracts the `acos`-based three-point
angle helper. -/
def detectSquatCheat (angJ : ℚ × ℚ → ℚ × ℚ → ℚ × ℚ → ℚ) (lms : JumpLms)
    (w h : ℚ) : Bool :=
  match landmarkXY lms.leftHip w h, landmarkXY lms.rightHip w h,
      landmarkXY lms.leftKnee w h, landmarkXY lms.rightKnee w h,
      landmarkXY lms.leftAnkle w h, landmarkXY lms.rightAnkle w h with
  | some lhip, some rhip, some lknee, some rknee, some lankle, some rankle =>
    let hip_y := (lhip.2 + rhip.2) / 2
    let knee_y := (lknee.2 + rknee.2) / 2
    let knee_angle := (angJ lhip lknee lankle + angJ rhip rknee rankle) / 2
    let is_knee_bent := decide (knee_angle < 150)
    let is_hip_low := decide (hip_y > knee_y - 20)
    let is_ankle_under :=
      decide (|(lankle.1 + rankle.1) / 2 - (lhip.1 + rhip.1) / 2| < 60)
    is_knee_bent && (is_hip_low || is_ankle_under)
  | _, _, _, _, _, _ => false

/-- `JumpAnalyzer._finalize_jump`. -/
def finalizeJump (cfg : JumpConfig) (angJ : ℚ × ℚ → ℚ × ℚ → ℚ × ℚ → ℚ)
    (peak : ℚ) (lms : JumpLms) (w h : ℚ) : JumpResultR :=
  let inches := max 0 peak * inchesPerPixel cfg
  if inches < cfg.min_jump_inches then
    { inches := inches, valid := false, reason := "too-small" }
  else if detectSquatCheat angJ lms w h then
    { inches := inches, valid := false, reason := "cheat" }
  else
    { inches := inches, valid := true, reason := "ok" }

/-- Mutable state of the camera `JumpAnalyzer` (`_init_state`). -/
structure JumpState where
  state : String
  baseline_nose_y : Option ℚ
  peak_delta_pixels : ℚ
  last_land_time : ℚ
  last_jump_result : Option JumpResultR
  prev_dy : Option ℚ
  airborne_frames : ℕ
  prev_time : ℚ
  fps : ℚ
  dy_debug : ℚ
  vel_debug : ℚ
  nose_history : List ℚ
  steady_frames : ℕ
  min_airborne_frames : ℕ
  deriving DecidableEq, Repr

/-- `JumpAnalyzer._init_state` at startup time `t0`. -/
def jumpInitState (cfg : JumpConfig) (t0 : ℚ) : JumpState :=
  { state := "idle"
    baseline_nose_y := none
    peak_delta_pixels := 0
    last_land_time := 0
    last_jump_result := none
    prev_dy := none
    airborne_frames := 0
    prev_time := t0
    fps := 0
    dy_debug := 0
    vel_debug := 0
    nose_history := []
    steady_frames := 0
    min_airborne_frames := cfg.min_airborne_frames }

/-- `JumpAnalyzer._reset_state` (the reset gesture separately clears
`last_jump_result`). -/
def resetJumpState (s : JumpState) : JumpState :=
  { s with
    state := "idle"
    baseline_nose_y := none
    peak_delta_pixels := 0
    prev_dy := none
    airborne_frames := 0
    nose_history := []
    steady_frames := 0 }

/-- The ARM-gesture block of `JumpAnalyzer.read_frame` (right hand to nose
while idle): transition to "armed", capture the baseline nose height, zero the
peak and the steady counter. -/
def armStep (lms : JumpLms) (w h : ℚ) (s : JumpState) : JumpState :=
  if s.state = "idle" ∧ isHandToNose lms.rightIndex lms.nose w h then
    let sArm := { s with state := "armed", steady_frames := 0 }
    match landmarkXY lms.nose w h with
    | some pn => { sArm with baseline_nose_y := some pn.2, peak_delta_pixels := 0 }
    | none => sArm
  else s

/-- The RESET-gesture block of `read_frame` (left hand to nose while armed or
landed): `_reset_state()` plus clearing the last result. -/
def resetStep (lms : JumpLms) (w h : ℚ) (s : JumpState) : JumpState :=
  if (s.state = "armed" ∨ s.state = "landed") ∧
      isHandToNose lms.leftIndex lms.nose w h then
    { resetJumpState s with last_jump_result := none }
  else s

/-- The jump-detection block of `read_frame`: runs only when the nose is
visible and a baseline exists; smooths the nose height, tracks steadiness,
computes displacement and velocity, and performs the takeoff and landing
transitions. -/
def measureStep (cfg : JumpConfig) (angJ : ℚ × ℚ → ℚ × ℚ → ℚ × ℚ → ℚ)
    (lms : JumpLms) (now w h dt : ℚ) (s2 : JumpState) : JumpState :=
  match landmarkXY lms.nose w h, s2.baseline_nose_y with
  | some pn, some b =>
    let hist0 := s2.nose_history ++ [pn.2]
    let hist := if hist0.length > max 5 cfg.smoothing_window then hist0.tail
      else hist0
    let smooth := winMean hist
    let steady := if |smooth - b| < 4 then s2.steady_frames + 1 else 0
    let dy := b - smooth
    let vel :=
      match s2.prev_dy with
      | some pd => if dt > 0 then (dy - pd) / dt else 0
      | none => 0
    let peak := max s2.peak_delta_pixels dy
    let arm_thresh := max 8 (0.015 * h)
    let land_thresh := max 5 (0.01 * h)
    let up_vel_thresh := cfg.vel_up_pct * h
    let down_vel_thresh := cfg.vel_down_pct * h
    let base := { s2 with
      nose_history := hist
      steady_frames := steady
      dy_debug := dy
      vel_debug := vel
      prev_dy := some dy
      peak_delta_pixels := peak }
    if base.state = "armed" ∧ steady ≥ 5 ∧ dy > arm_thresh ∧
        vel > up_vel_thresh then
      { base with state := "airborne", airborne_frames := 0 }
    else if base.state = "airborne" then
      let af := base.airborne_frames + 1
      if dy < land_thresh ∧ vel < -down_vel_thresh ∧
          af ≥ base.min_airborne_frames then
        { base with
          state := "landed"
          airborne_frames := af
          last_land_time := now
          last_jump_result := some (finalizeJump cfg angJ peak lms w h)
          steady_frames := 0 }
      else
        { base with airborne_frames := af }
    else base
  | _, _ => s2

/-- `JumpAnalyzer.read_frame`, state part.  `input` is the pose estimator's
outcome, `now` the wall-clock time, `w`/`h` the frame size.  The body is the
ARM block, the RESET block and the jump-detection block in the source's
order, followed by the FPS/prev_time bookkeeping that runs on every frame. -/
def readFrameJump (cfg : JumpConfig) (angJ : ℚ × ℚ → ℚ × ℚ → ℚ × ℚ → ℚ)
    (input : Option JumpLms) (now w h : ℚ) (s : JumpState) : JumpState :=
  let dt := if s.prev_time ≠ 0 then now - s.prev_time else 0
  let s3 :=
    match input with
    | none => s
    | some lms => measureStep cfg angJ lms now w h dt (resetStep lms w h (armStep lms w h s))
  { s3 with
    prev_time := now
    fps := if dt > 0 then 0.9 * s3.fps + 0.1 * (1 / dt) else s3.fps }

/-- The two ankle landmarks `JumpAnalyzerMobile.process_frame` uses. -/
structure MJLms where
  leftAnkle : Landmark
  rightAnkle : Landmark
  deriving DecidableEq, Repr

/-- Mutable state of `JumpAnalyzerMobile` (fields set in `__init__`). -/
structure MJState where
  baseline_y : Option ℚ
  max_jump_height : ℚ
  jump_count : ℕ
  is_jumping : Bool
  current_jump_height : ℚ
  feedback : Option String
  y_history : List ℚ
  deriving DecidableEq, Repr

/-- Initial state built by `JumpAnalyzerMobile.__init__`. -/
def mobileJumpInit : MJState :=
  { baseline_y := none
    max_jump_height := 0
    jump_count := 0
    is_jumping := false
    current_jump_height := 0
    feedback := none
    y_history := [] }

/-- `JumpAnalyzerMobile.reset`. -/
def mobileJumpReset (s : MJState) : MJState :=
  { s with
    jump_count := 0
    max_jump_height := 0
    baseline_y := none
    is_jumping := false
    current_jump_height := 0
    feedback := none
    y_history := [] }

/-- Python's `int(...)` on a rational: truncation toward zero. -/
def pyInt (q : ℚ) : ℤ :=
  if q < 0 then -Int.floor (-q) else Int.floor q

/-- `JumpAnalyzerMobile.process_frame`, state part.  `input` is the pose
estimator's outcome (the two ankle landmarks); `frame_h` the frame height. -/
def mobileJumpProcess (input : Option MJLms) (frame_h : ℚ) (s : MJState) :
    MJState :=
  match input with
  | none => { s with feedback := some visMsg }
  | some lms =>
    if lms.leftAnkle.visibility > 0.7 ∧ lms.rightAnkle.visibility > 0.7 then
      let avg := (lms.leftAnkle.y + lms.rightAnkle.y) / 2
      let hist := pushWindow s.y_history avg
      let smooth := winMean hist
      let b :=
        match s.baseline_y with
        | none => smooth
        | some b0 => b0
      let jp := (b - smooth) * frame_h
      if jp > 30 then
        { s with
          y_history := hist
          baseline_y := some b
          is_jumping := true
          jump_count := if s.is_jumping then s.jump_count else s.jump_count + 1
          current_jump_height := max s.current_jump_height jp
          max_jump_height := max s.max_jump_height jp
          feedback := some ("Jump Height: "
            ++ toString (pyInt (max s.current_jump_height jp)) ++ " px") }
      else
        { s with
          y_history := hist
          is_jumping := false
          current_jump_height := if s.is_jumping then 0 else s.current_jump_height
          feedback := some "Ready to jump"
          baseline_y := some (smooth * 0.1 + b * 0.9) }
    else
      { s with feedback := some visMsg }

/-- Claim C6: for both mobile classifiers, `reset()` returns the instance,
whatever its prior history, to exactly the freshly-constructed initial state:
counters zeroed, stage cleared, sequence and windows emptied, `depth_hold`
zero, `min_knee_angle` 180, baseline and feedback cleared. -/
theorem reset_returns_initial :
    (∀ s : SquatState, squatReset s = squatInit) ∧
    (∀ s : MJState, mobileJumpReset s = mobileJumpInit) :=
  ⟨fun _ => rfl, fun _ => rfl⟩

/-- `landmarkXY` yields the scaled pixel point whenever the landmark clears
the 0.4 visibility floor. -/
theorem landmarkXY_of_visible (lm : Landmark) (w h : ℚ) (hv : 0.4 ≤ lm.visibility) :
    landmarkXY lm w h = some (lm.x * w, lm.y * h) := by
  unfold landmarkXY
  rw [if_neg (not_lt.mpr hv)]

/-- Claim C2: on finalization, `inches = max(0, peak) × (calibration_inches /
calibration_pixels)`; below `minimum_jump_inches` the result is invalid with
reason "too-small"; otherwise the cheat detector flags exactly when the
average knee angle is below 150 degrees and (the hip midpoint is not
meaningfully higher than the knee midpoint, `hip_y > knee_y - 20`, or the
ankle midpoint is horizontally within 60 pixels of the hip midline), giving
reason "cheat", and otherwise the result is valid with reason "ok".  Stated
for configurations with positive pixel calibration and frames whose six
hip/knee/ankle landmarks clear the 0.4 visibility floor. -/
theorem finalize_characterization (angJ : ℚ × ℚ → ℚ × ℚ → ℚ × ℚ → ℚ)
    (cfg : JumpConfig) (lms : JumpLms) (w h peak : ℚ)
    (hcp : 0 < cfg.calibration_pixels)
    (hvis : 0.4 ≤ lms.leftHip.visibility ∧ 0.4 ≤ lms.rightHip.visibility ∧
      0.4 ≤ lms.leftKnee.visibility ∧ 0.4 ≤ lms.rightKnee.visibility ∧
      0.4 ≤ lms.leftAnkle.visibility ∧ 0.4 ≤ lms.rightAnkle.visibility) :
    finalizeJump cfg angJ peak lms w h =
      if max 0 peak * (cfg.calibration_inches / cfg.calibration_pixels)
          < cfg.min_jump_inches then
        { inches := max 0 peak * (cfg.calibration_inches / cfg.calibration_pixels)
          valid := false, reason := "too-small" }
      else if (angJ (lms.leftHip.x * w, lms.leftHip.y * h)
              (lms.leftKnee.x * w, lms.leftKnee.y * h)
              (lms.leftAnkle.x * w, lms.leftAnkle.y * h)
            + angJ (lms.rightHip.x * w, lms.rightHip.y * h)
              (lms.rightKnee.x * w, lms.rightKnee.y * h)
              (lms.rightAnkle.x * w, lms.rightAnkle.y * h)) / 2 < 150 ∧
          ((lms.leftHip.y * h + lms.rightHip.y * h) / 2
              > (lms.leftKnee.y * h + lms.rightKnee.y * h) / 2 - 20 ∨
            |(lms.leftAnkle.x * w + lms.rightAnkle.x * w) / 2
              - (lms.leftHip.x * w + lms.rightHip.x * w) / 2| < 60) then
        { inches := max 0 peak * (cfg.calibration_inches / cfg.calibration_pixels)
          valid := false, reason := "cheat" }
      else
        { inches := max 0 peak * (cfg.calibration_inches / cfg.calibration_pixels)
          valid := true, reason := "ok" } := by
  obtain ⟨h1, h2, h3, h4, h5, h6⟩ := hvis
  unfold finalizeJump inchesPerPixel detectSquatCheat
  rw [if_pos hcp, landmarkXY_of_visible _ _ _ h1, landmarkXY_of_visible _ _ _ h2,
    landmarkXY_of_visible _ _ _ h3, landmarkXY_of_visible _ _ _ h4,
    landmarkXY_of_visible _ _ _ h5, landmarkXY_of_visible _ _ _ h6]
  simp only [Bool.and_eq_true, Bool.or_eq_true, decide_eq_true_eq]

/-- A constant angle oracle modelling bent knees (100 degrees). -/
def bentKneeAng : ℚ × ℚ → ℚ × ℚ → ℚ × ℚ → ℚ := fun _ _ _ => 100

/-- A fully visible squatting body: hips level with knees, ankles under
hips. -/
def cheatLms : JumpLms :=
  { nose := ⟨0.5, 0.2, 1⟩
    rightIndex := ⟨0.1, 0.9, 1⟩
    leftIndex := ⟨0.9, 0.9, 1⟩
    leftHip := ⟨0.45, 0.5, 1⟩
    rightHip := ⟨0.55, 0.5, 1⟩
    leftKnee := ⟨0.45, 0.5, 1⟩
    rightKnee := ⟨0.55, 0.5, 1⟩
    leftAnkle := ⟨0.45, 0.9, 1⟩
    rightAnkle := ⟨0.55, 0.9, 1⟩ }

/-- Witness for C2: a 100-pixel peak with default calibration gives 12 inches
(above the 2-inch floor), and the bent-knee, low-hip configuration forces the
"cheat" result. -/
theorem finalize_characterization_witness :
    0 < defaultJumpConfig.calibration_pixels ∧
    (0.4 : ℚ) ≤ cheatLms.leftHip.visibility ∧
    finalizeJump defaultJumpConfig bentKneeAng 100 cheatLms 640 360
      = { inches := 12, valid := false, reason := "cheat" } :=
  ⟨by with_unfolding_all decide, by with_unfolding_all decide,
    (finalize_characterization bentKneeAng defaultJumpConfig cheatLms 640 360 100
      (by with_unfolding_all decide)
      ⟨by with_unfolding_all decide, by with_unfolding_all decide,
        by with_unfolding_all decide, by with_unfolding_all decide,
        by with_unfolding_all decide, by with_unfolding_all decide⟩).trans
      (by with_unfolding_all decide)⟩

set_option maxHeartbeats 1000000 in
/-- The jump-detection block never touches the baseline. -/
theorem measureStep_baseline (cfg : JumpConfig) (angJ : ℚ × ℚ → ℚ × ℚ → ℚ × ℚ → ℚ)
    (lms : JumpLms) (now w h dt : ℚ) (s2 : JumpState) :
    (measureStep cfg angJ lms now w h dt s2).baseline_nose_y
      = s2.baseline_nose_y := by
  unfold measureStep
  split
  · simp only []
    repeat' split
    all_goals rfl
  · rfl

set_option maxHeartbeats 1600000 in
/-- Claim C4 (amended): the camera `JumpAnalyzer` never drifts its baseline —
`baseline_nose_y` is only ever kept, cleared by the reset gesture, or set to
the current nose height by the arm gesture.  The exponential-decay drift with
weight 0.1 lives only in `JumpAnalyzerMobile`: on every fully visible frame
with `jump_pixels ≤ 30` (standing) the baseline becomes
`0.1 × smoothed + 0.9 × baseline`, and it never runs while
`jump_pixels > 30` (mid-jump). -/
theorem baseline_drift_location :
    (∀ (cfg : JumpConfig) (angJ : ℚ × ℚ → ℚ × ℚ → ℚ × ℚ → ℚ)
        (input : Option JumpLms) (now w h : ℚ) (s : JumpState),
      (readFrameJump cfg angJ input now w h s).baseline_nose_y = s.baseline_nose_y ∨
      (readFrameJump cfg angJ input now w h s).baseline_nose_y = none ∨
      (readFrameJump cfg angJ input now w h s).baseline_nose_y
        = Option.map (fun lms => lms.nose.y * h) input) ∧
    (∀ (lms : MJLms) (frame_h : ℚ) (s : MJState),
      lms.leftAnkle.visibility > 0.7 → lms.rightAnkle.visibility > 0.7 →
      ((s.baseline_y.getD (winMean (pushWindow s.y_history
            ((lms.leftAnkle.y + lms.rightAnkle.y) / 2)))
          - winMean (pushWindow s.y_history
            ((lms.leftAnkle.y + lms.rightAnkle.y) / 2))) * frame_h ≤ 30 →
        (mobileJumpProcess (some lms) frame_h s).baseline_y
          = some (winMean (pushWindow s.y_history
              ((lms.leftAnkle.y + lms.rightAnkle.y) / 2)) * 0.1
            + s.baseline_y.getD (winMean (pushWindow s.y_history
              ((lms.leftAnkle.y + lms.rightAnkle.y) / 2))) * 0.9)) ∧
      (30 < (s.baseline_y.getD (winMean (pushWindow s.y_history
            ((lms.leftAnkle.y + lms.rightAnkle.y) / 2)))
          - winMean (pushWindow s.y_history
            ((lms.leftAnkle.y + lms.rightAnkle.y) / 2))) * frame_h →
        (mobileJumpProcess (some lms) frame_h s).baseline_y
          = some (s.baseline_y.getD (winMean (pushWindow s.y_history
              ((lms.leftAnkle.y + lms.rightAnkle.y) / 2)))))) := by
  constructor
  · intro cfg angJ input now w h s
    cases input with
    | none =>
      left
      rfl
    | some lms =>
      have harm : (armStep lms w h s).baseline_nose_y = s.baseline_nose_y ∨
          (armStep lms w h s).baseline_nose_y = some (lms.nose.y * h) := by
        unfold armStep
        split
        · rcases hn : landmarkXY lms.nose w h with _ | pn
          · left
            simp [hn]
          · have hpn : pn.2 = lms.nose.y * h := by
              unfold landmarkXY at hn
              by_cases hv : lms.nose.visibility < 0.4
              · rw [if_pos hv] at hn
                exact absurd hn (by simp)
              · rw [if_neg hv] at hn
                rw [← Option.some.inj hn]
            right
            simp [hn, hpn]
        · left
          rfl
      have hreset : ∀ s1 : JumpState,
          (resetStep lms w h s1).baseline_nose_y = s1.baseline_nose_y ∨
          (resetStep lms w h s1).baseline_nose_y = none := by
        intro s1
        unfold resetStep
        split
        · right
          rfl
        · left
          rfl
      have hfinal : (readFrameJump cfg angJ (some lms) now w h s).baseline_nose_y
          = (measureStep cfg angJ lms now w h
              (if s.prev_time ≠ 0 then now - s.prev_time else 0)
              (resetStep lms w h (armStep lms w h s))).baseline_nose_y := by
        simp only [readFrameJump]
      rw [hfinal, measureStep_baseline]
      rcases hreset (armStep lms w h s) with h2 | h2
      · rw [h2]
        rcases harm with h3 | h3
        · left
          exact h3
        · right
          right
          simpa using h3
      · right
        left
        exact h2
  · intro lms frame_h s h1 h2
    simp only [mobileJumpProcess]
    rw [if_pos (And.intro h1 h2)]
    cases hb : s.baseline_y with
    | none =>
      simp only [hb, Option.getD_none]
      constructor
      · intro hle
        rw [if_neg (not_lt.mpr hle)]
      · intro hgt
        rw [if_pos hgt]
    | some b0 =>
      simp only [hb, Option.getD_some]
      constructor
      · intro hle
        rw [if_neg (not_lt.mpr hle)]
      · intro hgt
        rw [if_pos hgt]

/-- A placeholder angle oracle for replays that never reach finalization. -/
def jAngZero : ℚ × ℚ → ℚ × ℚ → ℚ × ℚ → ℚ := fun _ _ _ => 0

/-- An arming frame: right index finger on the nose, everything visible. -/
def armLms : JumpLms :=
  { nose := ⟨0.5, 0.5, 1⟩
    rightIndex := ⟨0.5, 0.5, 1⟩
    leftIndex := ⟨0, 0, 1⟩
    leftHip := ⟨0.45, 0.6, 1⟩
    rightHip := ⟨0.55, 0.6, 1⟩
    leftKnee := ⟨0.45, 0.75, 1⟩
    rightKnee := ⟨0.55, 0.75, 1⟩
    leftAnkle := ⟨0.45, 0.9, 1⟩
    rightAnkle := ⟨0.55, 0.9, 1⟩ }

/-- A standing frame two pixels higher: nose at 178 of 360 pixels, hands
away from the nose. -/
def standLms : JumpLms :=
  { armLms with nose := ⟨0.5, 178 / 360, 1⟩, rightIndex := ⟨0, 0, 1⟩ }

/-- The state after the arming frame (baseline captured at 180 px). -/
def js1 : JumpState :=
  readFrameJump defaultJumpConfig jAngZero (some armLms) 1 640 360
    (jumpInitState defaultJumpConfig 0.5)

/-- The state after the standing frame (smoothed nose 179 px, `dy = 1`). -/
def js2 : JumpState :=
  readFrameJump defaultJumpConfig jAngZero (some standLms) 2 640 360 js1

/-- Counterexample to C4 as stated: on the standing frame (`dy = 1`, below the
takeoff threshold `max(8, 0.015·360) = 8`, phase armed — not airborne), the
camera analyzer leaves `baseline_nose_y` at 180 instead of drifting it to
`0.9·180 + 0.1·179 = 179.9`: `JumpAnalyzer.read_frame` contains no baseline
drift at all. -/
theorem camera_baseline_never_drifts :
    js1.state = "armed" ∧ js1.baseline_nose_y = some 180 ∧
    js2.state = "armed" ∧ js2.state ≠ "airborne" ∧
    js2.dy_debug = 1 ∧ js2.dy_debug < max 8 (0.015 * 360) ∧
    js2.baseline_nose_y = some 180 ∧
    some (180 : ℚ) ≠ some (0.9 * 180 + 0.1 * 179 : ℚ) := by
  with_unfolding_all decide

/-- A fully visible mobile frame with both ankles at height 0.5. -/
def mjLmsW : MJLms := ⟨⟨0, 0.5, 1⟩, ⟨0, 0.5, 1⟩⟩

/-- Witness for C4 (amended): a first mobile frame has `jump_pixels = 0 ≤ 30`,
so the drift update runs (here fixing the fresh baseline at 0.5). -/
theorem baseline_drift_location_witness :
    mjLmsW.leftAnkle.visibility > 0.7 ∧
    (mobileJumpProcess (some mjLmsW) 360 mobileJumpInit).baseline_y
      = some (1 / 2) :=
  ⟨by with_unfolding_all decide,
    ((baseline_drift_location.2 mjLmsW 360 mobileJumpInit
        (by with_unfolding_all decide) (by with_unfolding_all decide)).1
        (by with_unfolding_all decide)).trans (by with_unfolding_all decide)⟩

/-- A constructed analyzer, reduced to whether its video source opened. -/
structure CMAnalyzer where
  opened : Bool
  deriving DecidableEq, Repr

/-- Outcome of `analyzer_cls()` inside `CameraManager.start`: a constructed
analyzer whose `is_opened()` returns the given flag, or an exception. -/
inductive FactoryOutcome where
  | constructs (opened : Bool)
  | raises
  deriving DecidableEq, Repr

/-- Mutable state of `CameraManager`. -/
structure CMState where
  analyzer : Option CMAnalyzer
  analyzer_type : Option String
  frame : Option ℕ
  running : Bool
  thread : Bool
  deriving DecidableEq, Repr

/-- `CameraManager._stop_internal`: stop the loop, join and drop the thread,
release and drop the analyzer, clear the frame and the type. -/
def stopInternalCM (s : CMState) : CMState :=
  { s with
    running := false
    thread := false
    analyzer := none
    frame := none
    analyzer_type := none }

/-- The freshly-constructed (stopped) manager state. -/
def stoppedCM : CMState :=
  { analyzer := none
    analyzer_type := none
    frame := none
    running := false
    thread := false }

/-- `CameraManager.start`: return-value and state transition. -/
def startCM (factory : FactoryOutcome) (ty : String) (s : CMState) :
    Bool × CMState :=
  if s.analyzer_type = some ty ∧ s.running = true then (true, s)
  else
    let s1 := stopInternalCM s
    match factory with
    | FactoryOutcome.raises => (false, s1)
    | FactoryOutcome.constructs opened =>
      let s2 := { s1 with analyzer := some ⟨opened⟩ }
      if ¬ opened then (false, { s2 with analyzer := none })
      else (true, { s2 with analyzer_type := some ty, running := true, thread := true })

/-- Claim C9: `start` returns true immediately — creating no new analyzer and
changing nothing — when the requested type is the currently running type;
otherwise it stops any current analyzer first, and when the newly constructed
analyzer's video source is not opened (or construction raises) it returns
false with the manager stopped: not running, no analyzer, no analyzer type,
no stored frame.  On success the manager holds exactly the fresh analyzer,
the new type and a running capture thread. -/
theorem camera_start_contract (f : FactoryOutcome) (ty : String) (s : CMState) :
    (s.analyzer_type = some ty ∧ s.running = true → startCM f ty s = (true, s)) ∧
    (¬(s.analyzer_type = some ty ∧ s.running = true) →
      (f = FactoryOutcome.constructs false → startCM f ty s = (false, stoppedCM)) ∧
      (f = FactoryOutcome.raises → startCM f ty s = (false, stoppedCM)) ∧
      (f = FactoryOutcome.constructs true →
        startCM f ty s = (true,
          { stoppedCM with
            analyzer := some ⟨true⟩
            analyzer_type := some ty
            running := true
            thread := true }))) := by
  constructor
  · intro h
    simp [startCM, h]
  · intro h
    refine ⟨?_, ?_, ?_⟩ <;> rintro rfl <;> simp [startCM, h, stopInternalCM, stoppedCM]

/-- Witness for C9: starting the already-running "squat" type changes
nothing; starting a type whose source fails to open leaves the manager
stopped. -/
theorem camera_start_contract_witness :
    startCM (FactoryOutcome.constructs true) "squat"
      ⟨some ⟨true⟩, some "squat", some 1, true, true⟩
      = (true, ⟨some ⟨true⟩, some "squat", some 1, true, true⟩) ∧
    startCM (FactoryOutcome.constructs false) "jump"
      ⟨some ⟨true⟩, some "squat", some 1, true, true⟩ = (false, stoppedCM) :=
  ⟨(camera_start_contract (FactoryOutcome.constructs true) "squat"
      ⟨some ⟨true⟩, some "squat", some 1, true, true⟩).1 (by decide),
    ((camera_start_contract (FactoryOutcome.constructs false) "jump"
      ⟨some ⟨true⟩, some "squat", some 1, true, true⟩).2 (by decide)).1 rfl⟩
